import Mathlib

/-!
Shallow embedding of the Ribasim Python model layer (Deltares/Bach.jl,
`python/ribasim`): the network data model, the validation passes of
`Model.validate_model` (model.py), persistence (`Model.write`,
`Model._write_toml`, `Model._write_tables`, `Model.from_toml`), the table
`sort()` methods, and the edge-construction checks pinned by the test suite.

Conventions of the embedding:
* pandas DataFrames become Lean lists of records; a DataFrame index column
  becomes an ordinary record field;
* Python `float` parameter columns (level, discharge, demand, ...) are
  embedded as `Int`: validation and sorting only ever use them as ordered
  sort keys, never arithmetically;
* `datetime` values are embedded as `Int` timestamps;
* a raised Python exception becomes `Except.error`; since the Python
  methods mutate nothing before raising, an `Except.error` result means the
  caller's state (model, filesystem) is unchanged;
* point/line geometry columns are dropped: they are not load-bearing for
  validation, sorting, or the table identities compared here.
-/

instance {ε α : Type} [DecidableEq ε] [DecidableEq α] : DecidableEq (Except ε α) :=
  fun a b =>
    match a, b with
    | Except.error e₁, Except.error e₂ => decidable_of_iff (e₁ = e₂) (by simp)
    | Except.ok a₁, Except.ok a₂ => decidable_of_iff (a₁ = a₂) (by simp)
    | Except.error _, Except.ok _ => isFalse (by simp)
    | Except.ok _, Except.error _ => isFalse (by simp)

/-- One row of `Model.node.static` (the Node table): the DataFrame index is
the node id, and the `"type"` column holds the node-type tag. -/
structure NodeRow where
  node_id : Int
  nodeType : String
deriving DecidableEq, Repr

/-- One row of the Edge table, after `EdgeSchema` (geometry/edge.py):
columns `name`, `from_node_type`, `from_node_id`, `to_node_type`,
`to_node_id`, `edge_type`, `subnetwork_id`.  `edge_id` embeds the DataFrame
index of the edge table (index name `edge_id`, pinned by
`test_write_adds_fid_in_tables`); the geometry column is dropped. -/
structure EdgeRow where
  edge_id : Int
  name : String
  from_node_type : Option String
  from_node_id : Int
  to_node_type : Option String
  to_node_id : Int
  edge_type : String
  subnetwork_id : Option Int
deriving DecidableEq, Repr

/-- One row of a per-node-type parameter table.  Only the `node_id` column
is load-bearing for validation; the remaining type-specific parameter
columns (flow_rate, level, ...) are abstracted into the opaque `payload`
field, which persistence must carry through unchanged. -/
structure TRow where
  node_id : Int
  payload : Int
deriving DecidableEq, Repr

/-- One per-node-type table field of the `Model` (basin, pump, ...):
`inputType` is the node-type tag returned by `get_input_type()` (e.g.
`"Basin"`), `rows` the rows of the field's table(s).  `Model.fields()`
iterates these uniformly, which is how `validate_model` uses them. -/
structure TypeField where
  inputType : String
  rows : List TRow
deriving DecidableEq, Repr

/-- Modelled from the spec: `get_node_IDs` lives in `input_base.py`, which
is absent from the source snapshot.  Per the spec's data model ("the set of
`node_id` values appearing in a node-type's table(s)") and its use in
`validate_model_node_field_IDs` (a time-varying table repeating a node_id
must not count as a cross-type duplicate), it returns the distinct node ids
appearing in the field's rows. -/
def TypeField.get_node_IDs (f : TypeField) : List Int :=
  (f.rows.map (·.node_id)).dedup

/-- `Solver` settings (model.py): all fields optional. -/
structure Solver where
  algorithm : Option String
  autodiff : Option Bool
  saveat : Option (List Int)
  dt : Option Int
  abstol : Option Int
  reltol : Option Int
  maxiters : Option Int
deriving DecidableEq, Repr

/-- The in-memory `Model` (model.py): the node table, the edge table, the
per-node-type table fields that are set (a `None` field is simply absent
from `tables`), and the scalar configuration. -/
structure Model where
  modelname : String
  node : List NodeRow
  edge : List EdgeRow
  tables : List TypeField
  starttime : Int
  endtime : Int
  solver : Option Solver
deriving DecidableEq, Repr

/-- The node-type class names found by `Model.get_node_types()`:
`inspect.getmembers(node_types, inspect.isclass)` over the classes that
model.py imports from `ribasim.node_types`, in the alphabetical order
`getmembers` returns. -/
def node_names_all : List String :=
  ["Basin", "Control", "FlowBoundary", "FractionalFlow", "LevelBoundary",
   "LinearResistance", "ManningResistance", "Pump", "TabulatedRatingCurve",
   "Terminal"]

/-- The exceptions raised by the validation passes of model.py, as
structured values.  The carried data mirrors what each Python message
interpolates. -/
inductive ValidationError where
  /-- `TypeError("Invalid node types detected: [...]")` -/
  | invalidNodeTypes (types : List String)
  /-- `ValueError("Node IDs must be positive integers, got ...")` -/
  | nonPositiveNodeIds (ids : List Int)
  /-- `ValueError("These node IDs were assigned to multiple node types: ...")` -/
  | duplicateNodeIdAcrossTypes (ids : List Int)
  /-- `ValueError("Expected node IDs from 1 to n ..., but these node IDs are missing: ...")` -/
  | missingNodeIds (n : Nat) (missing : List Int)
  /-- `ValueError` joining one "The node IDs in the field ... do not correspond
  with the node IDs in the field node ..." message per mismatching field,
  carrying (field input type, field node ids, node-table node ids). -/
  | nodeIdMismatch (mismatches : List (String × List Int × List Int))
deriving DecidableEq, Repr

/-- Pass 1, `Model.validate_model_node_types`: every value of the node
table's `"type"` column must be a recognized node-type name; otherwise the
set of offending type tags is raised. -/
def Model.validate_model_node_types (m : Model) : Except ValidationError Unit :=
  let invalid := ((m.node.map (·.nodeType)).filter
    (fun t => !(node_names_all.contains t))).dedup
  if invalid.isEmpty then Except.ok () else Except.error (.invalidNodeTypes invalid)

/-- The concatenation of `get_node_IDs()` over the set table fields,
`node_IDs_all` in `validate_model_node_field_IDs`. -/
def Model.mergedNodeIDs (m : Model) : List Int :=
  (m.tables.map (·.get_node_IDs)).flatten

/-- `np.unique(node_IDs_all)`: the distinct merged ids in ascending order. -/
def Model.uniqueNodeIDs (m : Model) : List Int :=
  List.insertionSort (· ≤ ·) m.mergedNodeIDs.dedup

/-- `np.arange(n_nodes) + 1 = [1, ..., n]` where `n` is the number of rows
of the node table. -/
def expectedIDs (n : Nat) : List Int :=
  (List.range' 1 n).map Int.ofNat

/-- Pass 2, `Model.validate_model_node_field_IDs`, on the merged
`get_node_IDs()` of all set table fields: first raise on ids that are not
positive, then on ids occurring in more than one field, then, unless the
distinct merged ids are exactly `[1, ..., n]`, raise with the expected ids
that are missing (`set(np.arange(n_nodes) + 1) - set(node_IDs_unique)`).
The source also rejects non-integral ids; ids are integers by construction
in this embedding.  (The source errors when no table field is set at all,
from `np.concatenate([])`; that degenerate case is out of scope here.) -/
def Model.validate_model_node_field_IDs (m : Model) : Except ValidationError Unit :=
  let uniq := m.uniqueNodeIDs
  let nonpos := uniq.filter (fun i => !(0 < i : Bool))
  if nonpos.isEmpty then
    let dups := uniq.filter (fun i => 1 < m.mergedNodeIDs.count i)
    if dups.isEmpty then
      let expected := expectedIDs m.node.length
      if uniq = expected then Except.ok ()
      else Except.error (.missingNodeIds m.node.length
        (expected.filter (fun i => !(uniq.contains i))))
    else Except.error (.duplicateNodeIdAcrossTypes dups)
  else Except.error (.nonPositiveNodeIds nonpos)

/-- The node ids the node table assigns to a given node type:
`self.node.static.loc[self.node.static["type"] == input_type].index`. -/
def Model.registryIDsOfType (m : Model) (inputType : String) : List Int :=
  (m.node.filter (fun r => r.nodeType = inputType)).map (·.node_id)

/-- Pass 3, `Model.validate_model_node_IDs`: for every set table field,
the set of node ids in the field's table(s) must equal the set of node ids
the node table tags with that field's type; ALL mismatching fields are
accumulated and raised together. -/
def Model.validate_model_node_IDs (m : Model) : Except ValidationError Unit :=
  let mismatches := m.tables.filterMap (fun f =>
    let fieldIDs := f.get_node_IDs
    let registryIDs := m.registryIDsOfType f.inputType
    if registryIDs.all (fieldIDs.contains ·) && fieldIDs.all (registryIDs.contains ·)
    then none
    else some (f.inputType, fieldIDs, registryIDs))
  if mismatches.isEmpty then Except.ok ()
  else Except.error (.nodeIdMismatch mismatches)

/-- `Model.validate_model`: the three passes in order.  Each pass raises on
the violations it finds, so the first failing pass aborts the whole call. -/
def Model.validate_model (m : Model) : Except ValidationError Unit := do
  m.validate_model_node_types
  m.validate_model_node_field_IDs
  m.validate_model_node_IDs

/-! ## Table sorting (`sort()` methods) -/

/-- Row of the TabulatedRatingCurve static table
(models.TabulatedRatingCurveStatic): node_id, discharge, level. -/
structure TRCStaticRow where
  node_id : Int
  discharge : Int
  level : Int
deriving DecidableEq, Repr

/-- Row of the TabulatedRatingCurve time table
(models.TabulatedRatingCurveTime): time, node_id, discharge, level. -/
structure TRCTimeRow where
  time : Int
  node_id : Int
  discharge : Int
  level : Int
deriving DecidableEq, Repr

/-- Row of the User time table: node_id, time, demand, priority. -/
structure UserTimeRow where
  node_id : Int
  time : Int
  demand : Int
  priority : Int
deriving DecidableEq, Repr

/-- The `sort_values(["node_id", "level"])` key order of
`TabulatedRatingCurve.sort` on the static table. -/
def trcStaticLE (a b : TRCStaticRow) : Prop :=
  a.node_id < b.node_id ∨ (a.node_id = b.node_id ∧ a.level ≤ b.level)

instance : DecidableRel trcStaticLE := fun a b => by unfold trcStaticLE; infer_instance

instance : IsTrans TRCStaticRow trcStaticLE :=
  ⟨fun a b c hab hbc => by unfold trcStaticLE at *; omega⟩

instance : IsTotal TRCStaticRow trcStaticLE :=
  ⟨fun a b => by unfold trcStaticLE; omega⟩

/-- The `sort_values(["time", "node_id", "level"])` key order of
`TabulatedRatingCurve.sort` on the time table: time is the primary key. -/
def trcTimeLE (a b : TRCTimeRow) : Prop :=
  a.time < b.time ∨ (a.time = b.time ∧
    (a.node_id < b.node_id ∨ (a.node_id = b.node_id ∧ a.level ≤ b.level)))

instance : DecidableRel trcTimeLE := fun a b => by unfold trcTimeLE; infer_instance

instance : IsTrans TRCTimeRow trcTimeLE :=
  ⟨fun a b c hab hbc => by unfold trcTimeLE at *; omega⟩

instance : IsTotal TRCTimeRow trcTimeLE :=
  ⟨fun a b => by unfold trcTimeLE; omega⟩

/-- The `sort_values(["node_id", "priority", "time"])` key order of
`User.sort` on the time table: priority before time. -/
def userTimeLE (a b : UserTimeRow) : Prop :=
  a.node_id < b.node_id ∨ (a.node_id = b.node_id ∧
    (a.priority < b.priority ∨ (a.priority = b.priority ∧ a.time ≤ b.time)))

instance : DecidableRel userTimeLE := fun a b => by unfold userTimeLE; infer_instance

instance : IsTrans UserTimeRow userTimeLE :=
  ⟨fun a b c hab hbc => by unfold userTimeLE at *; omega⟩

instance : IsTotal UserTimeRow userTimeLE :=
  ⟨fun a b => by unfold userTimeLE; omega⟩

/-- `TabulatedRatingCurve.sort` on the static table:
`self.static.sort_values(["node_id", "level"], ignore_index=True)`
(a stable sort on the listed keys in order). -/
def TabulatedRatingCurve.sortStatic (rows : List TRCStaticRow) : List TRCStaticRow :=
  List.insertionSort trcStaticLE rows

/-- `TabulatedRatingCurve.sort` on the time table:
`self.time.sort_values(["time", "node_id", "level"], ignore_index=True)`. -/
def TabulatedRatingCurve.sortTime (rows : List TRCTimeRow) : List TRCTimeRow :=
  List.insertionSort trcTimeLE rows

/-- `User.sort` on the time table:
`self.time.sort_values(["node_id", "priority", "time"], ignore_index=True)`. -/
def User.sortTime (rows : List UserTimeRow) : List UserTimeRow :=
  List.insertionSort userTimeLE rows

/-- `User.sort` / `FractionalFlow.sort` on a static table, and the default
documented by `Model.sort` ("Tables are sorted by node_id, unless otherwise
specified"): `sort_values("node_id", ignore_index=True)`, applied here to
the generic per-type rows. -/
def TRowSort (rows : List TRow) : List TRow :=
  List.insertionSort (fun a b => a.node_id ≤ b.node_id) rows

/-- The sort key order the spec's words assert for time-varying tables
("primarily by `node_id`, then `time` ..., then any type-specific secondary
key such as `level`"), stated for the TabulatedRatingCurve time table so it
can be compared with the source's `trcTimeLE`. -/
def specTimeVaryingLE (a b : TRCTimeRow) : Prop :=
  a.node_id < b.node_id ∨ (a.node_id = b.node_id ∧
    (a.time < b.time ∨ (a.time = b.time ∧ a.level ≤ b.level)))

instance : DecidableRel specTimeVaryingLE := fun a b => by
  unfold specTimeVaryingLE; infer_instance

/-- The spec-claimed sort of the TabulatedRatingCurve time table, to be
compared with `TabulatedRatingCurve.sortTime`. -/
def specSortTime (rows : List TRCTimeRow) : List TRCTimeRow :=
  List.insertionSort specTimeVaryingLE rows

/-! ## Persistence: the written bundle as an explicit filesystem -/

/-- One table stored as a layer of the GeoPackage container. -/
inductive Layer where
  | nodeL (rows : List NodeRow)
  | edgeL (rows : List EdgeRow)
  | tableL (rows : List TRow)
deriving DecidableEq, Repr

/-- The content of the TOML configuration file written by
`Model._write_toml`: starttime, endtime, the `geopackage` file name
`{modelname}.gpkg`, and the solver section when set. -/
structure TomlData where
  starttime : Int
  endtime : Int
  geopackage : String
  solver : Option Solver
deriving DecidableEq, Repr

/-- A file of the written bundle: the TOML configuration file or the
GeoPackage table container (an ordered collection of named layers). -/
inductive FileContent where
  | toml (t : TomlData)
  | gpkg (layers : List (String × Layer))
deriving DecidableEq, Repr

/-- The directory being written to, as a path-keyed association list in
which the most recent write shadows older entries. -/
abbrev FS := List (String × FileContent)

/-- Read the file at a path (most recent write wins). -/
def fsGet : FS → String → Option FileContent
  | [], _ => none
  | (q, c) :: fs, p => if q = p then some c else fsGet fs p

/-- Create or overwrite the file at a path. -/
def fsSet (fs : FS) (p : String) (c : FileContent) : FS :=
  (p, c) :: fs

/-- `Path.unlink(missing_ok=True)`: delete the file at a path. -/
def fsErase (fs : FS) (p : String) : FS :=
  fs.filter (fun e => e.1 ≠ p)

/-- Append a layer to the GeoPackage at `path`, creating the container if
the path is empty: the effect of one `TableModel.write` call on the
bundle. -/
def gpkgAddLayer (fs : FS) (path name : String) (l : Layer) : FS :=
  match fsGet fs path with
  | some (.gpkg ls) => fsSet fs path (.gpkg (ls ++ [(name, l)]))
  | _ => fsSet fs path (.gpkg [(name, l)])

/-- `Model._write_toml`: write `{directory}/{modelname}.toml` holding
starttime, endtime, `geopackage = "{modelname}.gpkg"` and the solver
section when set. -/
def Model._write_toml (m : Model) (dir : String) (fs : FS) : FS :=
  fsSet fs (dir ++ "/" ++ m.modelname ++ ".toml")
    (.toml ⟨m.starttime, m.endtime, m.modelname ++ ".gpkg", m.solver⟩)

/-- The layer writes performed by the `TableModel` fields during
`Model._write_tables`, in field order: the Node table, the Edge table, then
each set per-type table.  `TableModel.write` (input_base.py, absent from
the source snapshot) sorts a table before writing it, per the `Model.sort`
docstring "Sorting is done automatically before writing the table"; the
node and edge tables are stored in their in-memory order. -/
def Model.writeLayers (m : Model) (path : String) (fs : FS) : FS :=
  m.tables.foldl
    (fun acc f => gpkgAddLayer acc path f.inputType (.tableL (TRowSort f.rows)))
    (gpkgAddLayer (gpkgAddLayer fs path "Node" (.nodeL m.node)) path "Edge"
      (.edgeL m.edge))

/-- `Model._write_tables`: first `gpkg_path.unlink(missing_ok=True)` on
`{directory}/{modelname}.gpkg` ("avoid adding tables to existing model"),
then write every `TableModel` field into the container. -/
def Model._write_tables (m : Model) (dir : String) (fs : FS) : FS :=
  let path := dir ++ "/" ++ m.modelname ++ ".gpkg"
  m.writeLayers path (fsErase fs path)

/-- `Model.write`: run `validate_model` first; a validation exception
propagates, so nothing is written (the caller's filesystem is untouched).
On success write the TOML file and the tables.  (The `directory.mkdir` call
has no counterpart in this filesystem model.) -/
def Model.write (m : Model) (dir : String) (fs : FS) : Except ValidationError FS :=
  match m.validate_model with
  | .error e => .error e
  | .ok _ => .ok (m._write_tables dir (m._write_toml dir fs))

/-- Read the named layer of a GeoPackage container. -/
def lookupLayer : List (String × Layer) → String → Option Layer
  | [], _ => none
  | (q, l) :: ls, n => if q = n then some l else lookupLayer ls n

/-- The Node table of a container (`Node.from_config`). -/
def nodeOfLayers (ls : List (String × Layer)) : List NodeRow :=
  match lookupLayer ls "Node" with
  | some (.nodeL rows) => rows
  | _ => []

/-- The Edge table of a container (`Edge.from_config`). -/
def edgeOfLayers (ls : List (String × Layer)) : List EdgeRow :=
  match lookupLayer ls "Edge" with
  | some (.edgeL rows) => rows
  | _ => []

/-- The per-type table fields of a container (each node-type class's
`from_config`), in stored order. -/
def tablesOfLayers (ls : List (String × Layer)) : List TypeField :=
  ls.filterMap (fun p =>
    match p.2 with
    | .tableL rows => some ⟨p.1, rows⟩
    | _ => none)

/-- `Model.from_toml`: read `{dir}/{modelname}.toml` (`path.stem` of that
path is `modelname`), resolve its `geopackage` entry relative to `dir`,
and rebuild the model from the stored layers and the TOML scalars.
`none` embeds the exception raised when a file is absent. -/
def Model.from_toml (fs : FS) (dir modelname : String) : Option Model :=
  match fsGet fs (dir ++ "/" ++ modelname ++ ".toml") with
  | some (.toml t) =>
    match fsGet fs (dir ++ "/" ++ t.geopackage) with
    | some (.gpkg layers) =>
      some { modelname := modelname
             node := nodeOfLayers layers
             edge := edgeOfLayers layers
             tables := tablesOfLayers layers
             starttime := t.starttime
             endtime := t.endtime
             solver := t.solver }
    | _ => none
  | _ => none

/-! ## Node construction and the edge `add`/`connect` operation

The repository has two historical edge-API variants (the spec's §9 open
question); the later variant's `Node` class and checking `Edge.add` are
absent from the source snapshot, while the test suite pins their
behaviour.  They are modelled below from the spec's §4.1/§4.2, with every
detail the tests pin taken from the tests. -/

/-- `NodeData` (geometry/edge.py): the endpoint handle `Edge.add` receives;
geometry dropped. -/
structure NodeData where
  node_id : Int
  node_type : String
deriving DecidableEq, Repr

/-- Modelled from the spec: the later-variant `Node` class (the
`node_id`-validating constructor of §4.1 `NodeRegistry.add`) is absent from
the source snapshot.  Its node-id bound is pinned by
`test_invalid_node_id`, whose expected message "Input should be greater
than or equal to 0" is the pydantic non-negative-integer field error: a
negative id raises, so no node is created; ids are integral by the field
type.  Success returns the created node handle. -/
def Node.init (node_id : Int) (node_type : String) : Except String NodeData :=
  if node_id < 0 then .error "Input should be greater than or equal to 0"
  else .ok ⟨node_id, node_type⟩

/-- An edge direction, as in "inneighbor" / "outneighbor". -/
inductive Direction where
  | dirIn
  | dirOut
deriving DecidableEq, Repr

/-- The structural errors `connect`/`Edge.add` raises (spec §4.2 and the
messages pinned by test_model.py). -/
inductive EdgeError where
  /-- an endpoint id absent from the node table -/
  | unknownNode (id : Int)
  /-- "Edges have to be unique, but edge with from_node_id X to_node_id Y
  already exists." (pinned by `test_duplicate_edge`) -/
  | duplicateEdge (fromId toId : Int)
  /-- "Node of type X cannot be upstream of node of type Y"
  (pinned by `test_connectivity`) -/
  | incompatibleNodeTypes (fromType toType : String)
  /-- "Node {id} can have at most {bound} {edge_type} edge
  {direction}neighbor(s) (got {got})" (pinned by
  `test_maximum_flow_neighbor` / `test_maximum_control_neighbor`) -/
  | degreeViolation (nodeId : Int) (direction : Direction) (edgeType : String)
      (bound : Nat) (got : Nat)
deriving DecidableEq, Repr

/-- The number of `edgeType` edges already leaving (`dirOut`) or entering
(`dirIn`) node `v`: the observed neighbor count of the degree check
(edges with the same ordered endpoint pair are unique, so edge count equals
neighbor count). -/
def neighborCount (edges : List EdgeRow) (v : Int) (edgeType : String)
    (dir : Direction) : Nat :=
  (edges.filter (fun e => e.edge_type = edgeType &&
    match dir with
    | .dirOut => e.from_node_id = v
    | .dirIn => e.to_node_id = v)).length

/-- The degree-bound check of `Edge.add` for one endpoint: compare the
existing count against the Degree Constraint Table's maximum for that
(node type, edge type, direction), `none` meaning unbounded.  The raised
message reports the bound and the existing count (pinned: "can have at
most 1 flow edge outneighbor(s) (got 1)" on adding a second edge). -/
def degreeCheck (degMax : String → String → Direction → Option Nat)
    (edges : List EdgeRow) (node : NodeData) (edgeType : String)
    (dir : Direction) : Except EdgeError Unit :=
  match degMax node.node_type edgeType dir with
  | none => .ok ()
  | some mx =>
    let cnt := neighborCount edges node.node_id edgeType dir
    if cnt < mx then .ok ()
    else .error (.degreeViolation node.node_id dir edgeType mx cnt)

/-- Modelled from the spec: the later-variant checking `Edge.add`
(`connect` of §4.2) is absent from the source snapshot; its checks, in the
spec's order, are: `UnknownNode` for an endpoint absent from the node
table; `DuplicateEdge` if the ordered `(from_node_id, to_node_id)` pair
already exists, whatever either edge's `edge_type`; `IncompatibleNodeTypes`
against the static compatibility matrix `compat`; then the maximum
degree bounds pinned by the tests, out-direction first, against the static
Degree Constraint Table `degMax`.  Success appends the new row built from
the two `NodeData` handles as in the source `Edge.add`, auto-assigning the
next sequential 1-based `edge_id`; an error leaves the edge table
unchanged (the exception aborts the call before any mutation). -/
def Edge.add (compat : String → String → String → Bool)
    (degMax : String → String → Direction → Option Nat)
    (registry : List NodeRow) (edges : List EdgeRow)
    (from_node to_node : NodeData) (edge_type : String) (name : String)
    (subnetwork_id : Option Int) : Except EdgeError (List EdgeRow) :=
  if !(registry.any (fun r => r.node_id = from_node.node_id)) then
    .error (.unknownNode from_node.node_id)
  else if !(registry.any (fun r => r.node_id = to_node.node_id)) then
    .error (.unknownNode to_node.node_id)
  else if edges.any (fun e => e.from_node_id = from_node.node_id ∧
      e.to_node_id = to_node.node_id) then
    .error (.duplicateEdge from_node.node_id to_node.node_id)
  else if !(compat edge_type from_node.node_type to_node.node_type) then
    .error (.incompatibleNodeTypes from_node.node_type to_node.node_type)
  else do
    degreeCheck degMax edges from_node edge_type .dirOut
    degreeCheck degMax edges to_node edge_type .dirIn
    pure (edges ++ [{ edge_id := (edges.length : Int) + 1
                      name := name
                      from_node_type := some from_node.node_type
                      from_node_id := from_node.node_id
                      to_node_type := some to_node.node_type
                      to_node_id := to_node.node_id
                      edge_type := edge_type
                      subnetwork_id := subnetwork_id }])

/-- One requested `Edge.add` call. -/
structure AddReq where
  from_node : NodeData
  to_node : NodeData
  edge_type : String
  name : String
  subnetwork_id : Option Int
deriving DecidableEq, Repr

/-- Run a sequence of `Edge.add` calls, `none` unless every one succeeds. -/
def addAll (compat : String → String → String → Bool)
    (degMax : String → String → Direction → Option Nat)
    (registry : List NodeRow) :
    List AddReq → List EdgeRow → Option (List EdgeRow)
  | [], edges => some edges
  | r :: rs, edges =>
    match Edge.add compat degMax registry edges r.from_node r.to_node
        r.edge_type r.name r.subnetwork_id with
    | .ok edges' => addAll compat degMax registry rs edges'
    | .error _ => none


/-! ## Concrete networks used as witnesses and counterexamples -/

/-- A model whose node table has the unknown type tag `"Garbage"` (so
pass 1 fails) and whose only set table field references node id 2 while
the node table has one row (so pass 2 would fail too). -/
def mInvalidType : Model :=
  { modelname := "m", node := [⟨1, "Garbage"⟩], edge := [],
    tables := [⟨"Basin", [⟨2, 0⟩]⟩],
    starttime := 0, endtime := 1, solver := none }

/-- The spec §8 example network for pass 2: node ids `{1, 3, 6, 9}`
present in the node table, one per-type table referencing
`{1, 3, 6, 1000}`. -/
def mBadIDs : Model :=
  { modelname := "m",
    node := [⟨1, "Basin"⟩, ⟨3, "Basin"⟩, ⟨6, "Basin"⟩, ⟨9, "Basin"⟩],
    edge := [],
    tables := [⟨"Basin", [⟨1, 0⟩, ⟨3, 0⟩, ⟨6, 0⟩, ⟨1000, 0⟩]⟩],
    starttime := 0, endtime := 1, solver := none }

/-- A minimal model that passes all validation: one Basin node with id 1
and a matching per-type row. -/
def mValid : Model :=
  { modelname := "m", node := [⟨1, "Basin"⟩], edge := [],
    tables := [⟨"Basin", [⟨1, 5⟩]⟩],
    starttime := 0, endtime := 1, solver := none }

/-- A compatibility matrix allowing every connection (the checks under
test here are not the compatibility check). -/
def compatAll : String → String → String → Bool := fun _ _ _ => true

/-- A degree-constraint table with no bounds at all. -/
def degNone : String → String → Direction → Option Nat := fun _ _ _ => none

/-- The degree-constraint entry of the `outlet_model` scenario
(`test_maximum_flow_neighbor`): an Outlet may have at most 1 flow-edge
inneighbor and at most 1 flow-edge outneighbor. -/
def degOutlet : String → String → Direction → Option Nat := fun t et _ =>
  if t = "Outlet" && et = "flow" then some 1 else none

/-- The node table of the `test_duplicate_edge` scenario: the flow
boundary 16 and basin 1 between which an edge already exists. -/
def regDup : List NodeRow := [⟨16, "FlowBoundary"⟩, ⟨1, "Basin"⟩]

/-- The pre-existing edge 16 → 1 of the `test_duplicate_edge` scenario. -/
def edgesDup : List EdgeRow :=
  [⟨1, "", some "FlowBoundary", 16, some "Basin", 1, "flow", none⟩]

/-- The `test_maximum_flow_neighbor` scenario: outlet 2 already has the
one flow edge 2 → 3 leaving it, and a fresh basin 4 exists. -/
def regOutlet : List NodeRow := [⟨2, "Outlet"⟩, ⟨3, "Basin"⟩, ⟨4, "Basin"⟩]

/-- The pre-existing flow edge 2 → 3 of the outlet scenario. -/
def edgesOutlet : List EdgeRow :=
  [⟨1, "", some "Outlet", 2, some "Basin", 3, "flow", none⟩]

/-! ## C1: `write` validates first and refuses to persist on failure -/

/-- C1: `Model.write` runs `validate_model` before either persistence
step, and any validation error makes the whole call raise that error: no
TOML file and no table container is created or modified, because the
exception propagates before `_write_toml` and `_write_tables` run — the
caller's filesystem is exactly the one it passed in. -/
theorem write_refused_on_validation_error (m : Model) (dir : String) (fs : FS)
    (e : ValidationError) (h : m.validate_model = Except.error e) :
    m.write dir fs = Except.error e := by
  unfold Model.write
  rw [h]

/-- Witness for C1 at the concrete invalid model `mInvalidType`. -/
theorem write_refused_on_validation_error_witness :
    mInvalidType.validate_model
        = Except.error (ValidationError.invalidNodeTypes ["Garbage"]) ∧
      mInvalidType.write "d" []
        = Except.error (ValidationError.invalidNodeTypes ["Garbage"]) :=
  ⟨by decide, write_refused_on_validation_error mInvalidType "d" [] _ (by decide)⟩

/-! ## C7: node ids at node creation -/

/-- C7 counterexample: the claim says every `node_id ≤ 0` is refused, but
the node-id bound pinned by `test_invalid_node_id` ("Input should be
greater than or equal to 0") admits 0: creating a node with id 0
succeeds. -/
theorem node_zero_id_accepted :
    (0 : Int) ≤ 0 ∧ Node.init 0 "Basin" = Except.ok ⟨0, "Basin"⟩ := by decide

/-- C7 as amended: every negative `node_id` is refused with the pinned
non-negative-integer error, and no node is created (the constructor
raises before anything is inserted). -/
theorem node_negative_id_refused (node_id : Int) (node_type : String)
    (h : node_id < 0) :
    Node.init node_id node_type
      = Except.error "Input should be greater than or equal to 0" := by
  unfold Node.init
  rw [if_pos h]

/-- Witness for the amended C7 at `node_id = -1` (the tested input). -/
theorem node_negative_id_refused_witness :
    (-1 : Int) < 0 ∧ Node.init (-1) "Basin"
      = Except.error "Input should be greater than or equal to 0" :=
  ⟨by decide, node_negative_id_refused (-1) "Basin" (by decide)⟩

/-! ## C4: duplicate ordered edge pairs are refused -/

/-- C4: if an edge with the same ordered `(from_node_id, to_node_id)` pair
already exists — whatever that edge's `edge_type`, and whatever
`edge_type` is being added now — `Edge.add` raises `DuplicateEdge`
("Edges have to be unique, but edge with from_node_id X to_node_id Y
already exists.") and, the exception aborting the call, the edge table is
left unchanged (no `.ok` result is produced). -/
theorem edge_add_duplicate_refused
    (compat : String → String → String → Bool)
    (degMax : String → String → Direction → Option Nat)
    (registry : List NodeRow) (edges : List EdgeRow)
    (from_node to_node : NodeData) (edge_type name : String)
    (subnetwork_id : Option Int)
    (hfrom : registry.any (fun r => r.node_id = from_node.node_id) = true)
    (hto : registry.any (fun r => r.node_id = to_node.node_id) = true)
    (hdup : edges.any (fun e => e.from_node_id = from_node.node_id ∧
      e.to_node_id = to_node.node_id) = true) :
    Edge.add compat degMax registry edges from_node to_node edge_type name
        subnetwork_id
      = Except.error (.duplicateEdge from_node.node_id to_node.node_id) := by
  unfold Edge.add
  rw [hfrom, hto, hdup]
  rfl

/-- Witness for C4 at the `test_duplicate_edge` scenario: a flow edge
16 → 1 exists, and adding 16 → 1 again — even as a `control` edge — is
refused as a duplicate. -/
theorem edge_add_duplicate_refused_witness :
    edgesDup.any (fun e => e.from_node_id = 16 ∧ e.to_node_id = 1) = true ∧
      Edge.add compatAll degNone regDup edgesDup ⟨16, "FlowBoundary"⟩
          ⟨1, "Basin"⟩ "control" "duplicate" none
        = Except.error (.duplicateEdge 16 1) :=
  ⟨by decide,
    edge_add_duplicate_refused compatAll degNone regDup edgesDup
      ⟨16, "FlowBoundary"⟩ ⟨1, "Basin"⟩ "control" "duplicate" none
      (by decide) (by decide) (by decide)⟩

/-! ## C5: maximum-degree violations at edge creation -/

/-- C5 counterexample: in the `test_maximum_flow_neighbor` scenario —
outlet 2 capped at 1 flow-edge outneighbor and already having one —
adding a second outgoing flow edge is refused with the node id,
direction, edge type and bound the claim lists, but the observed count it
reports is the existing count 1 (the pinned message ends "(got 1)"), not
2 as the claim states. -/
theorem degree_violation_reports_existing_count :
    Edge.add compatAll degOutlet regOutlet edgesOutlet ⟨2, "Outlet"⟩
        ⟨4, "Basin"⟩ "flow" "" none
      = Except.error (.degreeViolation 2 Direction.dirOut "flow" 1 1) ∧
    Edge.add compatAll degOutlet regOutlet edgesOutlet ⟨2, "Outlet"⟩
        ⟨4, "Basin"⟩ "flow" "" none
      ≠ Except.error (.degreeViolation 2 Direction.dirOut "flow" 1 2) := by
  decide

/-- C5 as amended: for a node whose type caps `edge_type`-edge
outneighbors at 1 and which already has exactly one such outgoing edge,
adding another (with both endpoints known, the pair not a duplicate, and
the type pair compatible) raises a degree violation reporting the node
id, the out direction, the edge type, the bound 1, and the count of
edges existing before the refused insertion, namely 1. -/
theorem edge_add_degree_bound_one_refused
    (compat : String → String → String → Bool)
    (degMax : String → String → Direction → Option Nat)
    (registry : List NodeRow) (edges : List EdgeRow)
    (from_node to_node : NodeData) (edge_type name : String)
    (subnetwork_id : Option Int)
    (hfrom : registry.any (fun r => r.node_id = from_node.node_id) = true)
    (hto : registry.any (fun r => r.node_id = to_node.node_id) = true)
    (hdup : edges.any (fun e => e.from_node_id = from_node.node_id ∧
      e.to_node_id = to_node.node_id) = false)
    (hcompat : compat edge_type from_node.node_type to_node.node_type = true)
    (hbound : degMax from_node.node_type edge_type Direction.dirOut = some 1)
    (hcnt : neighborCount edges from_node.node_id edge_type Direction.dirOut = 1) :
    Edge.add compat degMax registry edges from_node to_node edge_type name
        subnetwork_id
      = Except.error
          (.degreeViolation from_node.node_id Direction.dirOut edge_type 1 1) := by
  have hout : degreeCheck degMax edges from_node edge_type Direction.dirOut
      = Except.error
          (.degreeViolation from_node.node_id Direction.dirOut edge_type 1 1) := by
    unfold degreeCheck
    rw [hbound, hcnt]
    rfl
  unfold Edge.add
  rw [hfrom, hto, hdup, hcompat]
  simp only [Bool.not_true, Bool.false_eq_true, if_false]
  rw [hout]
  rfl

/-- Witness for the amended C5 at the concrete outlet scenario. -/
theorem edge_add_degree_bound_one_refused_witness :
    degOutlet "Outlet" "flow" Direction.dirOut = some 1 ∧
      neighborCount edgesOutlet 2 "flow" Direction.dirOut = 1 ∧
      Edge.add compatAll degOutlet regOutlet edgesOutlet ⟨2, "Outlet"⟩
          ⟨4, "Basin"⟩ "flow" "x" none
        = Except.error (.degreeViolation 2 Direction.dirOut "flow" 1 1) :=
  ⟨by decide, by decide,
    edge_add_degree_bound_one_refused compatAll degOutlet regOutlet edgesOutlet
      ⟨2, "Outlet"⟩ ⟨4, "Basin"⟩ "flow" "x" none
      (by decide) (by decide) (by decide) (by decide) (by decide) (by decide)⟩

/-! ## C2: what a single `validate_model` call reports -/

/-- C2 counterexample: on `mInvalidType` both pass 1 (unknown node type)
and pass 2 (table node ids not `{1, ..., n}`) have violations, yet the
single `validate_model` call raises only the pass-1 error — the pass-2
violation is not surfaced alongside it — and no degree-constraint pass
exists in `validate_model` at all. -/
theorem validate_fail_fast_counterexample :
    mInvalidType.validate_model
        = Except.error (ValidationError.invalidNodeTypes ["Garbage"]) ∧
      mInvalidType.validate_model_node_field_IDs
        = Except.error (ValidationError.missingNodeIds 1 [1]) := by
  decide

/-- C2 as amended: `validate_model` runs three passes — node-type
validity, node-ID field validity, cross-reference consistency — in that
fixed order; each pass raises on the violations it finds, so a single
call surfaces exactly the first failing pass's error (only pass 3
accumulates, across fields, within itself), and succeeds exactly when all
three passes do.  Degree constraints are not among its passes; they are
enforced when edges are created. -/
theorem validate_three_passes_first_error (m : Model) :
    (m.validate_model = Except.ok () ↔
      m.validate_model_node_types = Except.ok () ∧
      m.validate_model_node_field_IDs = Except.ok () ∧
      m.validate_model_node_IDs = Except.ok ()) ∧
    ∀ e, m.validate_model = Except.error e →
      m.validate_model_node_types = Except.error e ∨
      (m.validate_model_node_types = Except.ok () ∧
        m.validate_model_node_field_IDs = Except.error e) ∨
      (m.validate_model_node_types = Except.ok () ∧
        m.validate_model_node_field_IDs = Except.ok () ∧
        m.validate_model_node_IDs = Except.error e) := by
  have hv : m.validate_model =
      (m.validate_model_node_types >>= fun _ =>
        m.validate_model_node_field_IDs >>= fun _ =>
        m.validate_model_node_IDs) := rfl
  cases h1 : m.validate_model_node_types with
  | error e1 =>
    constructor
    · rw [hv, h1]
      simp [Bind.bind, Except.bind]
    · intro e he
      rw [hv, h1] at he
      simp only [Bind.bind, Except.bind] at he
      left
      exact he
  | ok u1 =>
    cases u1
    cases h2 : m.validate_model_node_field_IDs with
    | error e2 =>
      constructor
      · rw [hv, h1, h2]
        simp [Bind.bind, Except.bind]
      · intro e he
        rw [hv, h1, h2] at he
        simp only [Bind.bind, Except.bind] at he
        right; left
        exact ⟨rfl, he⟩
    | ok u2 =>
      cases u2
      cases h3 : m.validate_model_node_IDs with
      | error e3 =>
        constructor
        · rw [hv, h1, h2, h3]
          simp [Bind.bind, Except.bind]
        · intro e he
          rw [hv, h1, h2, h3] at he
          simp only [Bind.bind, Except.bind] at he
          right; right
          exact ⟨rfl, rfl, he⟩
      | ok u3 =>
        cases u3
        constructor
        · rw [hv, h1, h2, h3]
          simp [Bind.bind, Except.bind]
        · intro e he
          rw [hv, h1, h2, h3] at he
          simp [Bind.bind, Except.bind] at he

/-- Witness for the amended C2, applying it at `mInvalidType`, whose
pass 1 fails. -/
theorem validate_three_passes_first_error_witness :
    mInvalidType.validate_model_node_types
        = Except.error (ValidationError.invalidNodeTypes ["Garbage"]) ∨
      (mInvalidType.validate_model_node_types = Except.ok () ∧
        mInvalidType.validate_model_node_field_IDs
          = Except.error (ValidationError.invalidNodeTypes ["Garbage"])) ∨
      (mInvalidType.validate_model_node_types = Except.ok () ∧
        mInvalidType.validate_model_node_field_IDs = Except.ok () ∧
        mInvalidType.validate_model_node_IDs
          = Except.error (ValidationError.invalidNodeTypes ["Garbage"])) :=
  (validate_three_passes_first_error mInvalidType).2 _ (by decide)

/-! ## C3: what pass 2 reports when the merged ids are not `{1, ..., n}` -/

/-- C3 counterexample: with node ids `{1, 3, 6, 9}` present (n = 4 rows)
and a per-type table referencing `{1, 3, 6, 1000}`, pass 2 reports the
missing ids `{2, 4}` — the expected range `{1, ..., 4}` minus the table
ids — not `{9}`, and reports no unexpected-id set at all (no such error
kind exists; 1000 is nowhere in the raised error). -/
theorem missing_ids_reporting_counterexample :
    mBadIDs.node.map (fun r => r.node_id) = [1, 3, 6, 9] ∧
      mBadIDs.mergedNodeIDs = [1, 3, 6, 1000] ∧
      mBadIDs.validate_model_node_field_IDs
        = Except.error (ValidationError.missingNodeIds 4 [2, 4]) ∧
      mBadIDs.validate_model_node_field_IDs
        ≠ Except.error (ValidationError.missingNodeIds 4 [9]) := by
  decide

/-- C3 as amended: pass 2 does require the merged table ids to equal
`{1, ..., n}` with n the node-table row count, but on failure (with the
positivity and cross-type-duplicate checks passing) it raises only the
MISSING ids, computed against the expected range `{1, ..., n}` — an id is
reported missing exactly when it lies in `{1, ..., n}` and no table
references it; ids outside the range (the claim's "unexpected" ids) are
never reported by value. -/
theorem validate_field_IDs_missing_from_expected_range (m : Model)
    (hpos : ∀ i ∈ m.uniqueNodeIDs, 0 < i)
    (hdup : ∀ i ∈ m.uniqueNodeIDs, m.mergedNodeIDs.count i ≤ 1)
    (hne : m.uniqueNodeIDs ≠ expectedIDs m.node.length) :
    ∃ missing, m.validate_model_node_field_IDs
        = Except.error (.missingNodeIds m.node.length missing) ∧
      ∀ i : Int, i ∈ missing ↔
        i ∈ expectedIDs m.node.length ∧ i ∉ m.mergedNodeIDs := by
  have h1 : m.uniqueNodeIDs.filter (fun i => !(0 < i : Bool)) = [] := by
    rw [List.filter_eq_nil_iff]
    intro a ha
    simp [hpos a ha]
  have h2 : m.uniqueNodeIDs.filter
      (fun i => 1 < m.mergedNodeIDs.count i) = [] := by
    rw [List.filter_eq_nil_iff]
    intro a ha
    have := hdup a ha
    simp
    omega
  have hmem : ∀ i : Int, i ∈ m.uniqueNodeIDs ↔ i ∈ m.mergedNodeIDs := by
    intro i
    unfold Model.uniqueNodeIDs
    rw [(List.perm_insertionSort (· ≤ ·) m.mergedNodeIDs.dedup).mem_iff]
    exact List.mem_dedup
  unfold Model.validate_model_node_field_IDs
  simp only [h1, h2, List.isEmpty_nil, if_true]
  rw [if_neg hne]
  refine ⟨_, rfl, ?_⟩
  intro i
  rw [List.mem_filter]
  constructor
  · rintro ⟨hexp, hc⟩
    refine ⟨hexp, ?_⟩
    intro hm
    rw [Bool.not_eq_true'] at hc
    simp at hc
    exact hc ((hmem i).mpr hm)
  · rintro ⟨hexp, hm⟩
    refine ⟨hexp, ?_⟩
    simp
    intro hu
    exact hm ((hmem i).mp hu)

/-- Witness for the amended C3 at `mBadIDs`. -/
theorem validate_field_IDs_missing_witness :
    mBadIDs.uniqueNodeIDs ≠ expectedIDs mBadIDs.node.length ∧
      ∃ missing, mBadIDs.validate_model_node_field_IDs
          = Except.error (.missingNodeIds mBadIDs.node.length missing) ∧
        ∀ i : Int, i ∈ missing ↔
          i ∈ expectedIDs mBadIDs.node.length ∧ i ∉ mBadIDs.mergedNodeIDs :=
  ⟨by decide,
    validate_field_IDs_missing_from_expected_range mBadIDs (by decide)
      (by decide) (by decide)⟩

/-! ## C8: edge ids are sequential, 1-based, in insertion order -/

/-- A successful `Edge.add` appends exactly one row at the end, carrying
the next sequential id `edges.length + 1`. -/
theorem edge_add_ok_append
    (compat : String → String → String → Bool)
    (degMax : String → String → Direction → Option Nat)
    (registry : List NodeRow) (edges : List EdgeRow)
    (from_node to_node : NodeData) (edge_type name : String)
    (subnetwork_id : Option Int) (es' : List EdgeRow)
    (h : Edge.add compat degMax registry edges from_node to_node edge_type
      name subnetwork_id = Except.ok es') :
    es' = edges ++ [{ edge_id := (edges.length : Int) + 1
                      name := name
                      from_node_type := some from_node.node_type
                      from_node_id := from_node.node_id
                      to_node_type := some to_node.node_type
                      to_node_id := to_node.node_id
                      edge_type := edge_type
                      subnetwork_id := subnetwork_id }] := by
  unfold Edge.add at h
  split at h
  · exact absurd h (by simp)
  split at h
  · exact absurd h (by simp)
  split at h
  · exact absurd h (by simp)
  split at h
  · exact absurd h (by simp)
  cases hc1 : degreeCheck degMax edges from_node edge_type Direction.dirOut with
  | error e1 =>
    rw [hc1] at h
    simp [Bind.bind, Except.bind] at h
  | ok u1 =>
    rw [hc1] at h
    cases hc2 : degreeCheck degMax edges to_node edge_type Direction.dirIn with
    | error e2 =>
      rw [hc2] at h
      simp [Bind.bind, Except.bind] at h
    | ok u2 =>
      rw [hc2] at h
      simp only [Bind.bind, Except.bind, pure, Except.pure, Except.ok.injEq] at h
      exact h.symm

/-- `[1, ..., n+1]` is `[1, ..., n]` with `n+1` appended. -/
theorem expectedIDs_concat (n : Nat) :
    expectedIDs (n + 1) = expectedIDs n ++ [(n : Int) + 1] := by
  unfold expectedIDs
  rw [List.range'_concat, List.map_append]
  congr 1
  simp
  omega

/-- Invariant carried through a run of `addAll`: if the ids so far are
`1, ..., |start|` in order, every successful extension keeps the ids
`1, ..., |result|` in order. -/
theorem addAll_ids_invariant
    (compat : String → String → String → Bool)
    (degMax : String → String → Direction → Option Nat)
    (registry : List NodeRow) :
    ∀ (reqs : List AddReq) (start es : List EdgeRow),
      start.map (·.edge_id) = expectedIDs start.length →
      addAll compat degMax registry reqs start = some es →
      es.map (·.edge_id) = expectedIDs es.length ∧
        es.length = start.length + reqs.length := by
  intro reqs
  induction reqs with
  | nil =>
    intro start es hstart h
    unfold addAll at h
    cases h
    exact ⟨hstart, rfl⟩
  | cons r rs ih =>
    intro start es hstart h
    unfold addAll at h
    cases hc : Edge.add compat degMax registry start r.from_node r.to_node
        r.edge_type r.name r.subnetwork_id with
    | error e =>
      rw [hc] at h
      replace h : (none : Option (List EdgeRow)) = some es := h
      exact Option.noConfusion h
    | ok es1 =>
      rw [hc] at h
      replace h : addAll compat degMax registry rs es1 = some es := h
      have hap := edge_add_ok_append compat degMax registry start r.from_node
        r.to_node r.edge_type r.name r.subnetwork_id es1 hc
      have hlen : es1.length = start.length + 1 := by
        rw [hap]
        simp
      have hinv : es1.map (·.edge_id) = expectedIDs es1.length := by
        rw [hap, List.map_append, hstart, List.length_append]
        simp only [List.length_cons, List.length_nil]
        rw [expectedIDs_concat]
        simp
      obtain ⟨ha, hb⟩ := ih es1 es hinv h
      refine ⟨ha, ?_⟩
      rw [hb, hlen]
      simp only [List.length_cons]
      omega

/-- C8: after any sequence of k successful `Edge.add` calls starting from
an empty edge table, the assigned edge ids are exactly `1, 2, ..., k`, in
the order the edges were added (each call appends its row at the end). -/
theorem edge_ids_sequential
    (compat : String → String → String → Bool)
    (degMax : String → String → Direction → Option Nat)
    (registry : List NodeRow) (reqs : List AddReq) (es : List EdgeRow)
    (h : addAll compat degMax registry reqs [] = some es) :
    es.map (·.edge_id) = expectedIDs reqs.length ∧ es.length = reqs.length := by
  have hstart : (List.map (fun e : EdgeRow => e.edge_id) []) = expectedIDs 0 := rfl
  obtain ⟨h1, h2⟩ := addAll_ids_invariant compat degMax registry reqs [] es hstart h
  simp only [List.length_nil, Nat.zero_add] at h2
  exact ⟨by rw [h1, h2], h2⟩

/-- Witness for C8: two successful adds on the duplicate-test node table
yield ids `[1, 2]`. -/
theorem edge_ids_sequential_witness :
    addAll compatAll degNone regDup
        [⟨⟨16, "FlowBoundary"⟩, ⟨1, "Basin"⟩, "flow", "", none⟩,
         ⟨⟨1, "Basin"⟩, ⟨16, "FlowBoundary"⟩, "flow", "", none⟩] []
      = some
        [⟨1, "", some "FlowBoundary", 16, some "Basin", 1, "flow", none⟩,
         ⟨2, "", some "Basin", 1, some "FlowBoundary", 16, "flow", none⟩] ∧
    List.map (fun e : EdgeRow => e.edge_id)
        [⟨1, "", some "FlowBoundary", 16, some "Basin", 1, "flow", none⟩,
         ⟨2, "", some "Basin", 1, some "FlowBoundary", 16, "flow", none⟩]
      = expectedIDs 2 :=
  ⟨by decide,
    (edge_ids_sequential compatAll degNone regDup
      [⟨⟨16, "FlowBoundary"⟩, ⟨1, "Basin"⟩, "flow", "", none⟩,
       ⟨⟨1, "Basin"⟩, ⟨16, "FlowBoundary"⟩, "flow", "", none⟩]
      [⟨1, "", some "FlowBoundary", 16, some "Basin", 1, "flow", none⟩,
       ⟨2, "", some "Basin", 1, some "FlowBoundary", 16, "flow", none⟩]
      (by decide)).1⟩

/-! ## C9: the canonical sort orders -/

instance : IsTrans TRow (fun a b => a.node_id ≤ b.node_id) :=
  ⟨fun _ _ _ hab hbc => le_trans hab hbc⟩

instance : IsTotal TRow (fun a b => a.node_id ≤ b.node_id) :=
  ⟨fun a b => Int.le_total a.node_id b.node_id⟩

/-- C9 counterexample: on the TabulatedRatingCurve time table — rows
(time 0, node 2) and (time 1, node 1) — the source sorts by
`["time", "node_id", "level"]` and keeps the time order, while the
claimed key order (node_id first, then time) would swap the rows: the
written order puts node 2's row before node 1's. -/
theorem time_table_sort_key_counterexample :
    TabulatedRatingCurve.sortTime [⟨0, 2, 0, 0⟩, ⟨1, 1, 0, 0⟩]
        = [⟨0, 2, 0, 0⟩, ⟨1, 1, 0, 0⟩] ∧
      specSortTime [⟨0, 2, 0, 0⟩, ⟨1, 1, 0, 0⟩]
        = [⟨1, 1, 0, 0⟩, ⟨0, 2, 0, 0⟩] ∧
      TabulatedRatingCurve.sortTime [⟨0, 2, 0, 0⟩, ⟨1, 1, 0, 0⟩]
        ≠ specSortTime [⟨0, 2, 0, 0⟩, ⟨1, 1, 0, 0⟩] := by
  decide

/-- C9 as amended: each `sort()` canonicalizes its table by a stable sort
on the source's per-table key list — static tables primarily by
`node_id` (TabulatedRatingCurve static by (node_id, level), the generic
default by node_id alone), but the TabulatedRatingCurve TIME table by
(time, node_id, level) with time as the primary key, and the User time
table by (node_id, priority, time) with the type-specific key priority
before time.  Each sort returns a permutation of the rows ordered by its
key relation; it is applied to the per-type rows when tables are written
(see `Model.writeLayers`). -/
theorem sort_canonicalizes_tables :
    (∀ rows, List.Perm (TabulatedRatingCurve.sortStatic rows) rows ∧
      List.Sorted trcStaticLE (TabulatedRatingCurve.sortStatic rows)) ∧
    (∀ rows, List.Perm (TabulatedRatingCurve.sortTime rows) rows ∧
      List.Sorted trcTimeLE (TabulatedRatingCurve.sortTime rows)) ∧
    (∀ rows, List.Perm (User.sortTime rows) rows ∧
      List.Sorted userTimeLE (User.sortTime rows)) ∧
    (∀ rows, List.Perm (TRowSort rows) rows ∧
      List.Sorted (fun a b => a.node_id ≤ b.node_id) (TRowSort rows)) :=
  ⟨fun rows => ⟨List.perm_insertionSort trcStaticLE rows,
      List.sorted_insertionSort trcStaticLE rows⟩,
    fun rows => ⟨List.perm_insertionSort trcTimeLE rows,
      List.sorted_insertionSort trcTimeLE rows⟩,
    fun rows => ⟨List.perm_insertionSort userTimeLE rows,
      List.sorted_insertionSort userTimeLE rows⟩,
    fun rows => ⟨List.perm_insertionSort _ rows,
      List.sorted_insertionSort _ rows⟩⟩

/-! ## Filesystem lemmas for the persistence theorems -/

/-- The layers `Model.writeLayers` stores in a fresh container: the Node
table, the Edge table, then one layer per set per-type table field, with
its rows sort-canonicalized. -/
def modelLayers (m : Model) : List (String × Layer) :=
  ("Node", .nodeL m.node) :: ("Edge", .edgeL m.edge) ::
    m.tables.map (fun f => (f.inputType, Layer.tableL (TRowSort f.rows)))

theorem fsGet_fsSet (fs : FS) (p : String) (c : FileContent) :
    fsGet (fsSet fs p c) p = some c := by
  unfold fsSet fsGet
  rw [if_pos rfl]

theorem fsGet_fsSet_ne (fs : FS) (p q : String) (c : FileContent)
    (h : p ≠ q) : fsGet (fsSet fs p c) q = fsGet fs q := by
  show (if p = q then some c else fsGet fs q) = fsGet fs q
  rw [if_neg h]

theorem fsGet_fsErase (fs : FS) (p : String) :
    fsGet (fsErase fs p) p = none := by
  induction fs with
  | nil => rfl
  | cons e fs ih =>
    unfold fsErase at ih ⊢
    rw [List.filter_cons]
    by_cases h : e.1 = p
    · rw [if_neg (by simp [h])]
      exact ih
    · rw [if_pos (by simp [h])]
      unfold fsGet
      rw [if_neg h]
      exact ih

theorem fsGet_fsErase_ne (fs : FS) (p q : String) (h : p ≠ q) :
    fsGet (fsErase fs p) q = fsGet fs q := by
  induction fs with
  | nil => rfl
  | cons e fs ih =>
    unfold fsErase at ih ⊢
    rw [List.filter_cons]
    by_cases he : e.1 = p
    · rw [if_neg (by simp [he])]
      rw [ih]
      conv_rhs => unfold fsGet
      rw [if_neg (he ▸ h)]
    · rw [if_pos (by simp [he])]
      conv_lhs => unfold fsGet
      conv_rhs => unfold fsGet
      by_cases hq : e.1 = q
      · rw [if_pos hq, if_pos hq]
      · rw [if_neg hq, if_neg hq]
        exact ih

theorem fsGet_gpkgAddLayer (fs : FS) (path name : String) (l : Layer)
    (ls : List (String × Layer)) (h : fsGet fs path = some (.gpkg ls)) :
    fsGet (gpkgAddLayer fs path name l) path
      = some (.gpkg (ls ++ [(name, l)])) := by
  unfold gpkgAddLayer
  rw [h]
  exact fsGet_fsSet fs path _

theorem fsGet_gpkgAddLayer_none (fs : FS) (path name : String) (l : Layer)
    (h : fsGet fs path = none) :
    fsGet (gpkgAddLayer fs path name l) path = some (.gpkg [(name, l)]) := by
  unfold gpkgAddLayer
  rw [h]
  exact fsGet_fsSet fs path _

theorem fsGet_gpkgAddLayer_ne (fs : FS) (path q name : String) (l : Layer)
    (h : path ≠ q) :
    fsGet (gpkgAddLayer fs path name l) q = fsGet fs q := by
  unfold gpkgAddLayer
  cases hg : fsGet fs path with
  | none => exact fsGet_fsSet_ne fs path q _ h
  | some c =>
    cases c with
    | toml t => exact fsGet_fsSet_ne fs path q _ h
    | gpkg ls => exact fsGet_fsSet_ne fs path q _ h

theorem writeTables_fold_get (path : String) :
    ∀ (tables : List TypeField) (fs : FS) (ls : List (String × Layer)),
      fsGet fs path = some (.gpkg ls) →
      fsGet (tables.foldl (fun acc f =>
          gpkgAddLayer acc path f.inputType (.tableL (TRowSort f.rows))) fs) path
        = some (.gpkg (ls ++ tables.map (fun f =>
            (f.inputType, Layer.tableL (TRowSort f.rows))))) := by
  intro tables
  induction tables with
  | nil =>
    intro fs ls h
    simpa using h
  | cons f rest ih =>
    intro fs ls h
    rw [List.foldl_cons, List.map_cons]
    have h1 := fsGet_gpkgAddLayer fs path f.inputType
      (.tableL (TRowSort f.rows)) ls h
    rw [ih _ _ h1]
    simp

theorem writeTables_fold_get_ne (path q : String) (h : path ≠ q) :
    ∀ (tables : List TypeField) (fs : FS),
      fsGet (tables.foldl (fun acc f =>
          gpkgAddLayer acc path f.inputType (.tableL (TRowSort f.rows))) fs) q
        = fsGet fs q := by
  intro tables
  induction tables with
  | nil =>
    intro fs
    rfl
  | cons f rest ih =>
    intro fs
    rw [List.foldl_cons, ih]
    exact fsGet_gpkgAddLayer_ne fs path q _ _ h

theorem writeLayers_get (m : Model) (path : String) (fs : FS)
    (h : fsGet fs path = none) :
    fsGet (m.writeLayers path fs) path = some (.gpkg (modelLayers m)) := by
  unfold Model.writeLayers
  have h1 := fsGet_gpkgAddLayer_none fs path "Node" (.nodeL m.node) h
  have h2 := fsGet_gpkgAddLayer _ path "Edge" (.edgeL m.edge) _ h1
  exact writeTables_fold_get path m.tables _ _ h2

theorem writeLayers_get_ne (m : Model) (path q : String) (fs : FS)
    (h : path ≠ q) : fsGet (m.writeLayers path fs) q = fsGet fs q := by
  unfold Model.writeLayers
  rw [writeTables_fold_get_ne path q h]
  rw [fsGet_gpkgAddLayer_ne _ path q _ _ h]
  exact fsGet_gpkgAddLayer_ne _ path q _ _ h

/-! ## C10: `_write_tables` leaves exactly this model's tables -/

/-- C10: `Model._write_tables` deletes `{directory}/{modelname}.gpkg`
before writing, so after it runs the container at that path holds exactly
this model's layers — Node, Edge, and one sorted layer per set table
field — whatever the filesystem previously held at that path: no layer
of a previously written model survives. -/
theorem write_tables_fresh_gpkg (m : Model) (dir : String) (fs : FS) :
    fsGet (m._write_tables dir fs) (dir ++ "/" ++ m.modelname ++ ".gpkg")
      = some (.gpkg (modelLayers m)) := by
  unfold Model._write_tables
  exact writeLayers_get m _ _ (fsGet_fsErase fs _)

/-! ## C6: write-then-read round trip -/

theorem toml_path_ne_gpkg_path (s : String) : s ++ ".toml" ≠ s ++ ".gpkg" := by
  intro h
  have hd := congrArg String.data h
  rw [String.data_append, String.data_append] at hd
  have h2 := List.append_cancel_left hd
  exact absurd h2 (by decide)

/-- Reading back the stored layers yields per-type fields whose names
match and whose rows are a permutation of the original fields'. -/
theorem tables_roundtrip_forall2 (tables : List TypeField) :
    List.Forall₂ (fun a b => a.inputType = b.inputType ∧
        List.Perm a.rows b.rows)
      (tables.map (fun f => TypeField.mk f.inputType (TRowSort f.rows)))
      tables := by
  induction tables with
  | nil => exact List.Forall₂.nil
  | cons f rest ih =>
    exact List.Forall₂.cons ⟨rfl, List.perm_insertionSort _ _⟩ ih

/-- C6: for every model that validates, `write` succeeds, and
`from_toml` on the written bundle reconstructs a model with the same
node table, the same edge table, and per-type tables whose fields match
up to a permutation of their rows (row order is not preserved: rows are
stored sort-canonicalized). -/
theorem write_read_roundtrip (m : Model) (dir : String) (fs : FS)
    (h : m.validate_model = Except.ok ()) :
    ∃ fs', m.write dir fs = Except.ok fs' ∧
      ∃ m', Model.from_toml fs' dir m.modelname = some m' ∧
        m'.node = m.node ∧ m'.edge = m.edge ∧
        m'.starttime = m.starttime ∧ m'.endtime = m.endtime ∧
        m'.solver = m.solver ∧
        List.Forall₂ (fun a b => a.inputType = b.inputType ∧
          List.Perm a.rows b.rows) m'.tables m.tables := by
  refine ⟨m._write_tables dir (m._write_toml dir fs), ?_, ?_⟩
  · unfold Model.write
    rw [h]
  · have hne : (dir ++ "/" ++ m.modelname) ++ ".gpkg"
        ≠ (dir ++ "/" ++ m.modelname) ++ ".toml" :=
      fun hh => toml_path_ne_gpkg_path (dir ++ "/" ++ m.modelname) hh.symm
    have htoml : fsGet (m._write_tables dir (m._write_toml dir fs))
        (dir ++ "/" ++ m.modelname ++ ".toml")
        = some (.toml ⟨m.starttime, m.endtime, m.modelname ++ ".gpkg",
            m.solver⟩) := by
      unfold Model._write_tables
      rw [writeLayers_get_ne m _ _ _ hne]
      rw [fsGet_fsErase_ne _ _ _ hne]
      unfold Model._write_toml
      exact fsGet_fsSet fs _ _
    have hgpkg : fsGet (m._write_tables dir (m._write_toml dir fs))
        (dir ++ "/" ++ (m.modelname ++ ".gpkg"))
        = some (.gpkg (modelLayers m)) := by
      rw [← String.append_assoc]
      exact write_tables_fresh_gpkg m dir (m._write_toml dir fs)
    unfold Model.from_toml
    rw [htoml]
    simp only []
    rw [hgpkg]
    refine ⟨_, rfl, ?_, ?_, rfl, rfl, rfl, ?_⟩
    · show nodeOfLayers (modelLayers m) = m.node
      unfold nodeOfLayers modelLayers lookupLayer
      rw [if_pos rfl]
    · show edgeOfLayers (modelLayers m) = m.edge
      unfold edgeOfLayers modelLayers lookupLayer
      rw [if_neg (by decide)]
      conv_lhs => unfold lookupLayer
      rw [if_pos rfl]
    · show List.Forall₂ _ (tablesOfLayers (modelLayers m)) m.tables
      unfold tablesOfLayers modelLayers
      rw [List.filterMap_cons, List.filterMap_cons]
      simp only [List.filterMap_map]
      have : (fun f : TypeField =>
          (fun p : String × Layer =>
            match p.2 with
            | .tableL rows => some (TypeField.mk p.1 rows)
            | _ => none)
          ((fun f : TypeField => (f.inputType, Layer.tableL (TRowSort f.rows))) f))
          = fun f : TypeField => some (TypeField.mk f.inputType (TRowSort f.rows)) :=
        rfl
      rw [Function.comp_def, this]
      have hcomp : (fun f : TypeField =>
          some (TypeField.mk f.inputType (TRowSort f.rows)))
          = some ∘ (fun f : TypeField =>
            TypeField.mk f.inputType (TRowSort f.rows)) := rfl
      rw [hcomp, List.filterMap_eq_map]
      exact tables_roundtrip_forall2 m.tables

/-- Witness for C6 at the one-basin model `mValid`. -/
theorem write_read_roundtrip_witness :
    mValid.validate_model = Except.ok () ∧
      ∃ fs', mValid.write "d" [] = Except.ok fs' ∧
        ∃ m', Model.from_toml fs' "d" mValid.modelname = some m' ∧
          m'.node = mValid.node ∧ m'.edge = mValid.edge ∧
          m'.starttime = mValid.starttime ∧ m'.endtime = mValid.endtime ∧
          m'.solver = mValid.solver ∧
          List.Forall₂ (fun a b => a.inputType = b.inputType ∧
            List.Perm a.rows b.rows) m'.tables mValid.tables :=
  ⟨by decide, write_read_roundtrip mValid "d" [] (by decide)⟩
